import Mathlib

/-!
Shallow embedding of the connection core of the pulsar-rs client
(src/connection.rs and src/executor.rs), together with theorems checking
the natural-language specification against it.

The embedding models:
  * `RequestKey`, `Register`, the protobuf-facing `Message` shape that
    `connection.rs` inspects (ping / pong / error / connected fields and
    the request-key classification of a frame);
  * the `Receiver` future's state (`pending_requests`, `received_messages`,
    `consumers`, `ping`) and one invocation of its `poll` body, with the
    readiness of the shutdown, registration and inbound sources supplied
    as explicit input data and all side effects (oneshot sends, consumer
    channel sends, outbound enqueues, shared-error-cell `set` calls)
    collected into explicit output lists;
  * `ConnectionSender::send_message` and `ConnectionSender::subscribe`
    control flow, `extract_message`, the handshake match inside
    `Connection::connect`, and the address-selection pipeline of
    `Connection::new` (default ports, DNS outcome, `gen_range` index pick,
    tokio `JoinHandle` panic conversion from executor.rs).

`BTreeMap` is modelled as an association list with function-like
insert / remove / lookup semantics.  Channel senders are opaque
identifiers; a successful `send` on one is an output event.
-/

namespace PulsarConn

/-- The correlation key of one request/response exchange
(`RequestKey` in connection.rs). -/
inductive RequestKey where
  | requestId (id : Nat)
  | producerSend (producer_id : Nat) (sequence_id : Nat)
  | consumer (consumer_id : Nat)
deriving DecidableEq

/-- The error taxonomy of the crate (`ConnectionError` in error.rs; the
variants and their payloads are those `connection.rs` constructs or
matches on; the server-error kind is kept as the raw numeric code since
error.rs is outside the sources). -/
inductive ConnectionError where
  | disconnected
  | notFound
  | pulsarError (kind : Nat) (message : Option String)
  | unexpected (descr : String)
  | unexpectedResponse (descr : String)
  | shutdownErr
  | ioErr
deriving DecidableEq

/-- `crate::error::server_error` maps the raw protobuf error code to the
server-error kind.  error.rs is outside the sources, so the kind is kept
as the code itself; connection.rs only passes it through. -/
def server_error (code : Nat) : Nat := code

/-- The `error` field of a `BaseCommand` (`CommandError` in the generated
protobuf): a numeric server-error code and a message. -/
structure CommandError where
  error : Nat
  message : String
deriving DecidableEq

/-- The slice of the protobuf `BaseCommand` that connection.rs inspects:
the command type tag and the `ping`, `pong`, `error` and `connected`
optional sub-commands.  The remaining ~20 optional sub-commands are not
read by the code under verification. -/
structure BaseCommand where
  type_ : Nat := 0
  ping : Option Unit := none
  pong : Option Unit := none
  error : Option CommandError := none
  connected : Option Unit := none
deriving DecidableEq

/-- A protocol frame (`Message` in message.rs): a command plus optional
payload.  `request_key` records the result of `Message::request_key()`
(message.rs is outside the sources; connection.rs only branches on the
returned `Option<RequestKey>`, which is therefore carried as data). -/
structure Message where
  command : BaseCommand
  payload : Option (List Nat) := none
  request_key : Option RequestKey := none
deriving DecidableEq

/-- A plain rendering of a `BaseCommand`, standing for Rust's derived
`Debug` formatting used in `format!` for error descriptions. -/
def BaseCommand.debugFmt (c : BaseCommand) : String :=
  "BaseCommand(type_ = " ++ toString c.type_
    ++ ", ping = " ++ toString c.ping.isSome
    ++ ", pong = " ++ toString c.pong.isSome
    ++ ", error = " ++ toString c.error.isSome
    ++ ", connected = " ++ toString c.connected.isSome ++ ")"

/-- A registration posted to the Receiver (`Register` in connection.rs).
Resolvers (oneshot / unbounded senders) are opaque identifiers. -/
inductive Register where
  | request (key : RequestKey) (resolver : Nat)
  | consumer (consumer_id : Nat) (resolver : Nat)
  | ping (resolver : Nat)
deriving DecidableEq

/-- Association-list lookup, modelling `BTreeMap::get`. -/
def mapLookup {κ α : Type} [DecidableEq κ] : List (κ × α) → κ → Option α
  | [], _ => none
  | (k', v) :: rest, k => if k' = k then some v else mapLookup rest k

/-- Removal of every binding of a key, the deletion part of
`BTreeMap::remove` / `BTreeMap::insert` overwriting. -/
def mapErase {κ α : Type} [DecidableEq κ] : List (κ × α) → κ → List (κ × α)
  | [], _ => []
  | (k', v) :: rest, k =>
      if k' = k then mapErase rest k else (k', v) :: mapErase rest k

/-- `BTreeMap::insert`: the new binding replaces any previous one. -/
def mapInsert {κ α : Type} [DecidableEq κ] (m : List (κ × α)) (k : κ) (v : α) :
    List (κ × α) :=
  (k, v) :: mapErase m k

/-- `BTreeMap::remove`: returns the removed value and the remaining map. -/
def mapRemove {κ α : Type} [DecidableEq κ] (m : List (κ × α)) (k : κ) :
    Option α × List (κ × α) :=
  (mapLookup m k, mapErase m k)

/-- The routing state owned by the Receiver task
(the table fields of `Receiver` in connection.rs). -/
structure Receiver where
  pending_requests : List (RequestKey × Nat)
  consumers : List (Nat × Nat)
  received_messages : List (RequestKey × Message)
  ping : Option Nat
deriving DecidableEq

/-- `Receiver::new`: all tables empty, no pending ping. -/
def Receiver.new : Receiver :=
  { pending_requests := []
    consumers := []
    received_messages := []
    ping := none }

/-- An observable side effect of one Receiver action: completing a
oneshot resolver with a message, completing the ping resolver, pushing a
frame into a consumer channel, enqueueing a frame on the outbound
channel, or logging and dropping an unkeyed frame. -/
inductive Effect where
  | resolve (resolver : Nat) (m : Message)
  | resolveUnit (resolver : Nat)
  | consumerSend (resolver : Nat) (m : Message)
  | enqueueOutbound (m : Message)
  | warnDrop (c : BaseCommand)
deriving DecidableEq

/-- `messages::pong()`: a frame with command type `Pong` (19 in the
generated protobuf `base_command::Type`) and the `pong` field set. -/
def messages.pong : Message :=
  { command := { type_ := 19, pong := some () } }

/-- Processing of one `Register` drawn from the registrations inbox
(the `Poll::Ready(Some(...))` arms of the first loop of
`Receiver::poll`). -/
def Receiver.handleRegister (s : Receiver) : Register → Receiver × List Effect
  | .request key resolver =>
      match mapRemove s.received_messages key with
      | (some msg, rest) =>
          ({ s with received_messages := rest }, [.resolve resolver msg])
      | (none, _) =>
          ({ s with pending_requests := mapInsert s.pending_requests key resolver },
           [])
  | .consumer consumer_id resolver =>
      ({ s with consumers := mapInsert s.consumers consumer_id resolver }, [])
  | .ping resolver =>
      ({ s with ping := some resolver }, [])

/-- The shared arm of `Receiver::poll` for `RequestId` and `ProducerSend`
keys: complete a pending resolver if one is registered, otherwise stash
the frame in `received_messages`. -/
def Receiver.handleKeyedResponse (s : Receiver) (key : RequestKey)
    (msg : Message) : Receiver × List Effect :=
  match mapRemove s.pending_requests key with
  | (some resolver, rest) =>
      ({ s with pending_requests := rest }, [.resolve resolver msg])
  | (none, _) =>
      ({ s with received_messages := mapInsert s.received_messages key msg },
       [])

/-- Processing of one inbound frame (the `Poll::Ready(Some(Ok(msg)))` arm
of the second loop of `Receiver::poll`): ping and pong commands first,
then dispatch by the frame's request key. -/
def Receiver.handleInbound (s : Receiver) (msg : Message) :
    Receiver × List Effect :=
  if msg.command.ping.isSome then
    (s, [.enqueueOutbound messages.pong])
  else if msg.command.pong.isSome then
    match s.ping with
    | some sender => ({ s with ping := none }, [.resolveUnit sender])
    | none => (s, [])
  else
    match msg.request_key with
    | some (RequestKey.requestId id) =>
        s.handleKeyedResponse (RequestKey.requestId id) msg
    | some (RequestKey.producerSend p q) =>
        s.handleKeyedResponse (RequestKey.producerSend p q) msg
    | some (RequestKey.consumer consumer_id) =>
        match mapLookup s.consumers consumer_id with
        | some c => (s, [.consumerSend c msg])
        | none => (s, [])
    | none => (s, [.warnDrop msg.command])

deriving instance DecidableEq for Except

/-- What one invocation of `Receiver::poll` finds ready on its three
sources: whether the shutdown oneshot is readable (value sent or
cancelled), the registrations the inbox yields before going pending or
closing, whether the inbox is closed after them, the items the inbound
stream yields (frames or a transport error), and whether the inbound
stream is closed after them. -/
structure PollInput where
  shutdownReady : Bool
  regs : List Register
  regsClosed : Bool
  inbound : List (Except ConnectionError Message)
  inboundClosed : Bool
deriving DecidableEq

/-- The value a `poll` invocation returns: `Poll::Ready(Err(()))`
(the only `Ready` value the code produces) or `Poll::Pending`. -/
inductive PollResult where
  | terminatedErr
  | pending
deriving DecidableEq

/-- The outcome of one `poll` invocation: the routing state afterwards,
the side effects emitted in order, the arguments of the `error.set`
calls made, and the returned poll value. -/
structure PollOutput where
  state : Receiver
  effects : List Effect
  errSets : List ConnectionError
  result : PollResult
deriving DecidableEq

/-- The first loop of `Receiver::poll`: drain the registrations inbox. -/
def Receiver.drainRegisters (s : Receiver) :
    List Register → Receiver × List Effect
  | [] => (s, [])
  | r :: rest =>
      let (s1, eff1) := s.handleRegister r
      let (s2, eff2) := s1.drainRegisters rest
      (s2, eff1 ++ eff2)

/-- The second loop of `Receiver::poll`: drain the inbound stream.  A
transport error terminates at once with that error set; end of stream
terminates with `Disconnected` set; a pending stream returns
`Poll::Pending`. -/
def Receiver.drainInbound (s : Receiver) (acc : List Effect) :
    List (Except ConnectionError Message) → Bool → PollOutput
  | [], closed =>
      if closed then ⟨s, acc, [.disconnected], .terminatedErr⟩
      else ⟨s, acc, [], .pending⟩
  | .ok msg :: rest, closed =>
      let (s1, eff) := s.handleInbound msg
      s1.drainInbound (acc ++ eff) rest closed
  | .error e :: _, _ => ⟨s, acc, [e], .terminatedErr⟩

/-- One invocation of the body of `Receiver::poll`: shutdown check first
(terminating untouched with no error set), then the registration drain
(a closed inbox sets `Disconnected` and terminates), then the inbound
drain. -/
def Receiver.poll (s : Receiver) (inp : PollInput) : PollOutput :=
  if inp.shutdownReady then ⟨s, [], [], .terminatedErr⟩
  else
    let s1 := (s.drainRegisters inp.regs).1
    let eff1 := (s.drainRegisters inp.regs).2
    if inp.regsClosed then ⟨s1, eff1, [.disconnected], .terminatedErr⟩
    else s1.drainInbound eff1 inp.inbound inp.inboundClosed

/-- `extract_message`: a server error in the command wins; otherwise the
extractor is applied and its `None` becomes `UnexpectedResponse`. -/
def extract_message {T : Type} (message : Message)
    (extract : Message → Option T) : Except ConnectionError T :=
  match message.command.error with
  | some e =>
      .error (.pulsarError (server_error e.error) (some e.message))
  | none =>
      match extract message with
      | some extracted => .ok extracted
      | none => .error (.unexpectedResponse message.command.debugFmt)

/-- The observable outcome of one sender-side operation: its returned
value, the `error.set` calls it made, and the frames it passed to
`tx.unbounded_send` (whether or not the channel accepted them). -/
structure OpOutcome (R : Type) where
  result : Except ConnectionError R
  errSets : List ConnectionError
  enqueued : List Message

/-- `ConnectionSender::send_message`: both the registration post and the
frame enqueue are attempted; if either failed the operation returns
`Disconnected` without touching the shared cell; otherwise the resolver
is awaited — cancellation (`response = none`) sets `Disconnected` on the
shared cell and returns it, and a delivered message goes through
`extract_message`.  `regOk` / `txOk` are the success of the two
unbounded sends, `response` the awaited oneshot value. -/
def send_message {R : Type} (msg : Message) (regOk txOk : Bool)
    (response : Option Message) (extract : Message → Option R) :
    OpOutcome R :=
  if regOk ∧ txOk then
    match response with
    | none =>
        { result := .error .disconnected
          errSets := [.disconnected]
          enqueued := [msg] }
    | some m =>
        { result := extract_message m extract
          errSets := []
          enqueued := [msg] }
  else
    { result := .error .disconnected
      errSets := []
      enqueued := [msg] }

/-- `ConnectionSender::subscribe`: post the `Register::Consumer`
registration first; on failure set `Disconnected` on the shared cell and
return it without calling `send_message` (so the `Subscribe` frame is
never enqueued); on success fall through to `send_message`. -/
def subscribe {R : Type} (msg : Message) (consRegOk regOk txOk : Bool)
    (response : Option Message) (extract : Message → Option R) :
    OpOutcome R :=
  if consRegOk then send_message msg regOk txOk response extract
  else
    { result := .error .disconnected
      errSets := [.disconnected]
      enqueued := [] }

/-- The handshake match in `Connection::connect` over the item the
stream yields after the `Connect` frame was sent: an error-carrying
frame maps to `PulsarError`, then the `connected` field is required,
a transport error passes through, and end of stream is `Disconnected`. -/
def handshake_response (item : Option (Except ConnectionError Message)) :
    Except ConnectionError Unit :=
  match item with
  | some (.ok msg) =>
      match msg.command.error with
      | some e =>
          .error (.pulsarError (server_error e.error) (some e.message))
      | none =>
          match msg.command.connected with
          | some c => .ok c
          | none =>
              .error (.unexpected
                ("Unexpected message from pulsar: " ++ msg.command.debugFmt))
  | some (.error e) => .error e
  | none => .error .disconnected

/-- The default-port closure passed to `socket_addrs` in
`Connection::new`. -/
def default_port (scheme : String) : Option Nat :=
  match scheme with
  | "pulsar" => some 6650
  | "pulsar+ssl" => some 6651
  | _ => none

/-- `rand::Rng::gen_range(low, high)` of the rand 0.7 line: uniform in
`[low, high)`, and a panic — modelled as `none` — when the range is
empty.  `rand` stands for the generator draw. -/
def gen_range (rand low high : Nat) : Option Nat :=
  if low < high then some (low + rand % (high - low)) else none

/-- The abrupt termination of a Rust task by an uncaught panic. -/
inductive Panicked where
  | panicked
deriving DecidableEq

/-- The blocking closure of `Connection::new` around DNS resolution:
`socket_addrs(...).ok()` gives `none` on resolution failure, and on
success an index is drawn with `gen_range(0, v.len())` — which panics
when the resolved list is empty — and looked up with
`v.get(index).copied()`.  Addresses are opaque numbers. -/
def choose_address (rand : Nat) (resolved : Option (List Nat)) :
    Except Panicked (Option Nat) :=
  match resolved with
  | none => .ok none
  | some v =>
      match gen_range rand 0 v.length with
      | none => .error .panicked
      | some index => .ok v[index]?

/-- The tokio `JoinHandle` poll from executor.rs: a panicked blocking
task yields `Err(JoinError)`, which `.ok()` turns into `None`; a
completed task yields its value. -/
def tokioJoinResult {α : Type} : Except Panicked α → Option α
  | .error _ => none
  | .ok a => some a

/-- The address-selection step of `Connection::new` after
`spawn_blocking(...).await` under the tokio executor: only
`Some(Some(address))` proceeds, every other outcome returns
`NotFound`. -/
def connection_new_address (rand : Nat) (resolved : Option (List Nat)) :
    Except ConnectionError Nat :=
  match tokioJoinResult (choose_address rand resolved) with
  | some (some address) => .ok address
  | _ => .error .notFound

/-- The disjointness predicate on the Receiver's two correlation tables:
no key is bound in both `pending_requests` and `received_messages`. -/
def DisjointTables (s : Receiver) : Prop :=
  ∀ key, mapLookup s.pending_requests key = none
    ∨ mapLookup s.received_messages key = none

/-- A specification-side characterization of the `error.set` calls the
inbound drain makes, used to enumerate the error-setting paths. -/
def inboundErrSets :
    List (Except ConnectionError Message) → Bool → List ConnectionError
  | [], closed => if closed then [.disconnected] else []
  | .ok _ :: rest, closed => inboundErrSets rest closed
  | .error e :: _, _ => [e]

theorem mapLookup_erase {κ α : Type} [DecidableEq κ]
    (m : List (κ × α)) (k k' : κ) :
    mapLookup (mapErase m k) k' = if k' = k then none else mapLookup m k' := by
  induction m with
  | nil => simp [mapErase, mapLookup]
  | cons p rest ih =>
      obtain ⟨a, b⟩ := p
      by_cases h1 : a = k <;> by_cases h2 : k' = k <;> by_cases h3 : a = k' <;>
        simp_all [mapErase, mapLookup, ih]

theorem mapLookup_insert {κ α : Type} [DecidableEq κ]
    (m : List (κ × α)) (k k' : κ) (v : α) :
    mapLookup (mapInsert m k v) k' =
      if k' = k then some v else mapLookup m k' := by
  by_cases h : k' = k
  · simp [mapInsert, mapLookup, h]
  · simp [mapInsert, mapLookup, h, Ne.symm h, mapLookup_erase]

theorem disjoint_handleRegister (s : Receiver) (r : Register)
    (h : DisjointTables s) : DisjointTables (s.handleRegister r).1 := by
  cases r with
  | request key resolver =>
      intro k
      by_cases hrcv : mapLookup s.received_messages key = none
      · simp only [Receiver.handleRegister, mapRemove, hrcv]
        by_cases hk : k = key
        · subst hk
          exact Or.inr hrcv
        · rcases h k with h' | h'
          · exact Or.inl (by rw [mapLookup_insert, if_neg hk]; exact h')
          · exact Or.inr h'
      · obtain ⟨m, hm⟩ := Option.ne_none_iff_exists'.mp hrcv
        simp only [Receiver.handleRegister, mapRemove, hm]
        by_cases hk : k = key
        · subst hk
          exact Or.inr (by rw [mapLookup_erase, if_pos rfl])
        · rcases h k with h' | h'
          · exact Or.inl h'
          · exact Or.inr (by rw [mapLookup_erase, if_neg hk]; exact h')
  | consumer cid resolver => exact h
  | ping resolver => exact h

theorem disjoint_handleKeyedResponse (s : Receiver) (key : RequestKey)
    (msg : Message) (h : DisjointTables s) :
    DisjointTables (s.handleKeyedResponse key msg).1 := by
  by_cases hpend : mapLookup s.pending_requests key = none
  · simp only [Receiver.handleKeyedResponse, mapRemove, hpend]
    intro k
    by_cases hk : k = key
    · subst hk
      exact Or.inl hpend
    · rcases h k with h' | h'
      · exact Or.inl h'
      · exact Or.inr (by rw [mapLookup_insert, if_neg hk]; exact h')
  · obtain ⟨r, hr⟩ := Option.ne_none_iff_exists'.mp hpend
    simp only [Receiver.handleKeyedResponse, mapRemove, hr]
    intro k
    by_cases hk : k = key
    · subst hk
      exact Or.inl (by rw [mapLookup_erase, if_pos rfl])
    · rcases h k with h' | h'
      · exact Or.inl (by rw [mapLookup_erase, if_neg hk]; exact h')
      · exact Or.inr h'

theorem disjoint_handleInbound (s : Receiver) (m : Message)
    (h : DisjointTables s) : DisjointTables (s.handleInbound m).1 := by
  unfold Receiver.handleInbound
  split
  · exact h
  · split
    · split
      · exact h
      · exact h
    · split
      · exact disjoint_handleKeyedResponse _ _ _ h
      · exact disjoint_handleKeyedResponse _ _ _ h
      · split
        · exact h
        · exact h
      · exact h

theorem disjoint_drainRegisters (s : Receiver) (rs : List Register)
    (h : DisjointTables s) : DisjointTables (s.drainRegisters rs).1 := by
  induction rs generalizing s with
  | nil => exact h
  | cons r rest ih =>
      simp only [Receiver.drainRegisters]
      exact ih _ (disjoint_handleRegister s r h)

theorem disjoint_drainInbound (s : Receiver) (acc : List Effect)
    (items : List (Except ConnectionError Message)) (closed : Bool)
    (h : DisjointTables s) :
    DisjointTables (s.drainInbound acc items closed).state := by
  induction items generalizing s acc with
  | nil =>
      unfold Receiver.drainInbound
      split <;> exact h
  | cons item rest ih =>
      cases item with
      | ok m =>
          simp only [Receiver.drainInbound]
          exact ih _ _ (disjoint_handleInbound s m h)
      | error e => exact h

theorem drainInbound_errSets (s : Receiver) (acc : List Effect)
    (items : List (Except ConnectionError Message)) (closed : Bool) :
    (s.drainInbound acc items closed).errSets = inboundErrSets items closed := by
  induction items generalizing s acc with
  | nil =>
      unfold Receiver.drainInbound inboundErrSets
      split <;> rfl
  | cons item rest ih =>
      cases item with
      | ok m => simp only [Receiver.drainInbound, inboundErrSets, ih]
      | error e => rfl

/-- C1: out-of-order responses are never lost.  For a frame keyed by a
`RequestId` or `ProducerSend` key: if the registration is processed
first (and nothing is stashed under the key), the later frame is sent to
the registered resolver; if the frame arrives first (and no resolver is
pending under the key), it is stashed in `received_messages`, and a
later `Register::Request` for the key removes the stash and sends it to
the new resolver — so the resolver receives the response in either
order. -/
theorem receiver_out_of_order_delivery (s : Receiver) (key : RequestKey)
    (resolver : Nat) (msg : Message)
    (hkind : (∃ id, key = RequestKey.requestId id)
      ∨ ∃ p q, key = RequestKey.producerSend p q)
    (hping : msg.command.ping = none) (hpong : msg.command.pong = none)
    (hkey : msg.request_key = some key) :
    (mapLookup s.received_messages key = none →
      ((s.handleRegister (.request key resolver)).1.handleInbound msg).2
        = [.resolve resolver msg])
    ∧ (mapLookup s.pending_requests key = none →
        mapLookup (s.handleInbound msg).1.received_messages key = some msg
        ∧ ((s.handleInbound msg).1.handleRegister (.request key resolver)).2
            = [.resolve resolver msg]
        ∧ mapLookup ((s.handleInbound msg).1.handleRegister
            (.request key resolver)).1.received_messages key = none) := by
  constructor
  · intro hrcv
    rcases hkind with ⟨id, rfl⟩ | ⟨p, q, rfl⟩ <;>
      simp [Receiver.handleRegister, Receiver.handleInbound,
        Receiver.handleKeyedResponse, mapRemove, hrcv, hping, hpong, hkey,
        mapLookup_insert]
  · intro hpend
    rcases hkind with ⟨id, rfl⟩ | ⟨p, q, rfl⟩ <;>
      simp [Receiver.handleRegister, Receiver.handleInbound,
        Receiver.handleKeyedResponse, mapRemove, hpend, hping, hpong, hkey,
        mapLookup_insert, mapLookup_erase]

/-- Witness for C1: a lookup response for request id 42, delivered to
resolver 7 of a fresh Receiver in both orders. -/
theorem receiver_out_of_order_delivery_witness :
    (((Receiver.new.handleRegister (.request (.requestId 42) 7)).1.handleInbound
        { command := {}, request_key := some (.requestId 42) }).2
      = [.resolve 7 { command := {}, request_key := some (.requestId 42) }])
    ∧ (((Receiver.new.handleInbound
          { command := {}, request_key := some (.requestId 42) }).1.handleRegister
          (.request (.requestId 42) 7)).2
        = [.resolve 7 { command := {}, request_key := some (.requestId 42) }]) := by
  have h := receiver_out_of_order_delivery Receiver.new (.requestId 42) 7
    { command := {}, request_key := some (.requestId 42) }
    (Or.inl ⟨42, rfl⟩) rfl rfl rfl
  exact ⟨h.1 rfl, (h.2 rfl).2.1⟩

/-- C2: for every `RequestKey`, at most one of `pending_requests` and
`received_messages` holds an entry; the predicate holds for the state
built by `Receiver::new` and is preserved by processing any
registration, any inbound frame, and any full `poll` invocation
(including the terminating ones, which leave the state as computed). -/
theorem receiver_tables_disjoint :
    DisjointTables Receiver.new
    ∧ (∀ s r, DisjointTables s → DisjointTables (s.handleRegister r).1)
    ∧ (∀ s m, DisjointTables s → DisjointTables (s.handleInbound m).1)
    ∧ (∀ s inp, DisjointTables s → DisjointTables (s.poll inp).state) := by
  refine ⟨fun _ => Or.inl rfl, disjoint_handleRegister, disjoint_handleInbound,
    ?_⟩
  intro s inp h
  unfold Receiver.poll
  by_cases hs : inp.shutdownReady
  · simpa [hs] using h
  · simp only [hs, if_false]
    by_cases hr : inp.regsClosed
    · simpa [hr] using disjoint_drainRegisters s inp.regs h
    · simpa [hr] using
        disjoint_drainInbound _ _ inp.inbound inp.inboundClosed
          (disjoint_drainRegisters s inp.regs h)

/-- Witness for C2: the disjointness of the tables at key 1 after a full
poll of a fresh Receiver processing one registration and one inbound
frame for that key. -/
theorem receiver_tables_disjoint_witness :
    mapLookup (Receiver.new.poll
      ⟨false, [.request (.requestId 1) 5], false,
        [.ok { command := {}, request_key := some (.requestId 1) }],
        false⟩).state.pending_requests (.requestId 1) = none
    ∨ mapLookup (Receiver.new.poll
        ⟨false, [.request (.requestId 1) 5], false,
          [.ok { command := {}, request_key := some (.requestId 1) }],
          false⟩).state.received_messages (.requestId 1) = none :=
  receiver_tables_disjoint.2.2.2 Receiver.new
    ⟨false, [.request (.requestId 1) 5], false,
      [.ok { command := {}, request_key := some (.requestId 1) }], false⟩
    (fun _ => Or.inl rfl) (.requestId 1)

/-- C3: every operation going through `send_message` returns
`Disconnected` when posting the registration or enqueueing the frame
fails, and a cancelled resolver makes `send_message` set `Disconnected`
on the shared cell and return it. -/
theorem send_message_disconnected (R : Type) (msg : Message)
    (extract : Message → Option R) (regOk txOk : Bool)
    (response : Option Message) :
    (regOk = false ∨ txOk = false →
      (send_message msg regOk txOk response extract).result
        = .error .disconnected)
    ∧ (send_message msg true true none extract).result = .error .disconnected
    ∧ (send_message msg true true none extract).errSets = [.disconnected] := by
  refine ⟨?_, rfl, rfl⟩
  rintro (rfl | rfl) <;> simp [send_message]

/-- Witness for C3: a failed registration post and a cancelled resolver,
both observed at a concrete message and extractor. -/
theorem send_message_disconnected_witness :
    (send_message { command := {} } false true none
        (fun _ => (none : Option Nat))).result = .error .disconnected
    ∧ (send_message { command := {} } true true none
        (fun _ => (none : Option Nat))).errSets = [.disconnected] :=
  ⟨(send_message_disconnected Nat { command := {} } (fun _ => none) false true
      none).1 (Or.inl rfl),
   (send_message_disconnected Nat { command := {} } (fun _ => none) false true
      none).2.2⟩

/-- C4: `extract_message` is total and three-way — a server error in the
command yields `PulsarError` independently of the extractor, an
extractor returning nothing yields `UnexpectedResponse`, and an
extracted value is returned as `Ok`. -/
theorem extract_message_three_way (T : Type) (message : Message)
    (extract extract' : Message → Option T) :
    (∀ e, message.command.error = some e →
      extract_message message extract
        = .error (.pulsarError (server_error e.error) (some e.message))
      ∧ extract_message message extract = extract_message message extract')
    ∧ (message.command.error = none → extract message = none →
        extract_message message extract
          = .error (.unexpectedResponse message.command.debugFmt))
    ∧ (∀ x, message.command.error = none → extract message = some x →
        extract_message message extract = .ok x) := by
  refine ⟨fun e he => ⟨?_, ?_⟩, fun he hx => ?_, fun x he hx => ?_⟩ <;>
    simp [extract_message, he, *]

/-- Witness for C4: the three outcomes at concrete messages and
extractors. -/
theorem extract_message_three_way_witness :
    extract_message { command := { error := some ⟨5, "boom"⟩ } }
        (fun _ => (none : Option Nat))
      = .error (.pulsarError (server_error 5) (some "boom"))
    ∧ extract_message { command := {} } (fun _ => (none : Option Nat))
      = .error (.unexpectedResponse (BaseCommand.debugFmt {}))
    ∧ extract_message { command := {} } (fun _ => (some 9 : Option Nat))
      = .ok 9 :=
  ⟨((extract_message_three_way Nat { command := { error := some ⟨5, "boom"⟩ } }
      (fun _ => none) (fun _ => none)).1 ⟨5, "boom"⟩ rfl).1,
   (extract_message_three_way Nat { command := {} }
      (fun _ => none) (fun _ => none)).2.1 rfl rfl,
   (extract_message_three_way Nat { command := {} }
      (fun _ => some 9) (fun _ => some 9)).2.2 9 rfl rfl⟩

/-- C5: the handshake response match is exhaustive — an error-carrying
frame yields `PulsarError`, a `connected` frame yields success, any
other frame yields `Unexpected`, end of stream yields `Disconnected`,
and a transport error passes through unchanged. -/
theorem connect_handshake_exhaustive (msg : Message) (e : CommandError)
    (err : ConnectionError) :
    (msg.command.error = some e →
      handshake_response (some (.ok msg))
        = .error (.pulsarError (server_error e.error) (some e.message)))
    ∧ (msg.command.error = none → msg.command.connected = some () →
        handshake_response (some (.ok msg)) = .ok ())
    ∧ (msg.command.error = none → msg.command.connected = none →
        handshake_response (some (.ok msg))
          = .error (.unexpected
              ("Unexpected message from pulsar: " ++ msg.command.debugFmt)))
    ∧ handshake_response none = .error .disconnected
    ∧ handshake_response (some (.error err)) = .error err := by
  refine ⟨fun he => ?_, fun he hc => ?_, fun he hc => ?_, rfl, rfl⟩ <;>
    simp [handshake_response, he, *]

/-- Witness for C5: all five handshake outcomes at concrete inputs. -/
theorem connect_handshake_exhaustive_witness :
    handshake_response (some (.ok { command := { error := some ⟨2, "denied"⟩ } }))
      = .error (.pulsarError (server_error 2) (some "denied"))
    ∧ handshake_response (some (.ok { command := { connected := some () } }))
      = .ok ()
    ∧ handshake_response (some (.ok { command := {} }))
      = .error (.unexpected
          ("Unexpected message from pulsar: " ++ BaseCommand.debugFmt {}))
    ∧ handshake_response none = .error .disconnected
    ∧ handshake_response (some (.error .ioErr)) = .error .ioErr :=
  ⟨(connect_handshake_exhaustive { command := { error := some ⟨2, "denied"⟩ } }
      ⟨2, "denied"⟩ .ioErr).1 rfl,
   (connect_handshake_exhaustive { command := { connected := some () } }
      ⟨2, "denied"⟩ .ioErr).2.1 rfl rfl,
   (connect_handshake_exhaustive { command := {} }
      ⟨2, "denied"⟩ .ioErr).2.2.1 rfl rfl,
   (connect_handshake_exhaustive { command := {} }
      ⟨2, "denied"⟩ .ioErr).2.2.2.1,
   (connect_handshake_exhaustive { command := {} }
      ⟨2, "denied"⟩ .ioErr).2.2.2.2⟩

/-- C6: keep-alive round trip — an inbound `Ping` enqueues exactly one
`Pong` on the outbound channel and leaves the whole Receiver state
(hence every routing table) unchanged; an inbound `Pong` completes and
clears the pending ping resolver when one is set, and is ignored
otherwise. -/
theorem receiver_ping_pong (s : Receiver) (m : Message) (r : Nat) :
    (m.command.ping = some () →
      s.handleInbound m = (s, [.enqueueOutbound messages.pong]))
    ∧ (m.command.ping = none → m.command.pong = some () → s.ping = some r →
        s.handleInbound m = ({ s with ping := none }, [.resolveUnit r]))
    ∧ (m.command.ping = none → m.command.pong = some () → s.ping = none →
        s.handleInbound m = (s, [])) := by
  refine ⟨fun hping => ?_, fun hping hpong hr => ?_, fun hping hpong hr => ?_⟩ <;>
    simp [Receiver.handleInbound, hping, *]

/-- Witness for C6: a concrete ping frame and a concrete pong frame with
and without a pending ping resolver. -/
theorem receiver_ping_pong_witness :
    Receiver.new.handleInbound { command := { type_ := 18, ping := some () } }
      = (Receiver.new, [.enqueueOutbound messages.pong])
    ∧ ({ Receiver.new with ping := some 4 } : Receiver).handleInbound
        { command := { type_ := 19, pong := some () } }
      = (Receiver.new, [.resolveUnit 4])
    ∧ Receiver.new.handleInbound { command := { type_ := 19, pong := some () } }
      = (Receiver.new, []) :=
  ⟨(receiver_ping_pong Receiver.new
      { command := { type_ := 18, ping := some () } } 4).1 rfl,
   (receiver_ping_pong { Receiver.new with ping := some 4 }
      { command := { type_ := 19, pong := some () } } 4).2.1 rfl rfl rfl,
   (receiver_ping_pong Receiver.new
      { command := { type_ := 19, pong := some () } } 4).2.2 rfl rfl rfl⟩

/-- C7 counterexample: the index draw over the resolved address vector is
not defined at length zero — `gen_range(0, 0)` has an empty range and
panics, so the blocking closure panics on an empty address list instead
of selecting an index. -/
theorem choose_address_empty_panics :
    choose_address 0 (some []) = .error .panicked
    ∧ gen_range 0 0 0 = none := by
  exact ⟨rfl, rfl⟩

/-- C7 amended: DNS failure yields `NotFound`; a nonempty resolved list
gives a defined, in-range index draw and succeeds; an empty resolved
list makes the closure panic in `gen_range` — under the tokio executor
the join handle turns the panic into `None` and `Connection::new` still
returns `NotFound`. -/
theorem connection_new_address_outcomes (rand : Nat)
    (resolved : Option (List Nat)) :
    (resolved = none → connection_new_address rand resolved = .error .notFound)
    ∧ (∀ v, resolved = some v → v ≠ [] →
        ∃ i a, gen_range rand 0 v.length = some i ∧ v[i]? = some a
          ∧ connection_new_address rand resolved = .ok a)
    ∧ (resolved = some [] →
        choose_address rand resolved = .error .panicked
        ∧ connection_new_address rand resolved = .error .notFound) := by
  refine ⟨fun h => by subst h; rfl, fun v hv hne => ?_, fun h => by subst h; exact ⟨rfl, rfl⟩⟩
  subst hv
  have hlen : 0 < v.length := List.length_pos.mpr hne
  have hmod : rand % v.length < v.length := Nat.mod_lt _ hlen
  refine ⟨rand % v.length, v.get ⟨rand % v.length, hmod⟩, ?_, ?_, ?_⟩
  · simp [gen_range, hlen]
  · simp [List.getElem?_eq_getElem hmod]
  · have hget : v[rand % v.length]? = some (v.get ⟨rand % v.length, hmod⟩) := by
      simp [List.getElem?_eq_getElem hmod]
    simp [connection_new_address, choose_address, gen_range, hlen,
      tokioJoinResult, hget]

/-- Witness for C7 amended: DNS failure, a two-address list with draw 3,
and the empty list, each at a concrete input. -/
theorem connection_new_address_outcomes_witness :
    connection_new_address 3 none = .error .notFound
    ∧ connection_new_address 3 (some [10, 20]) = .ok 20
    ∧ connection_new_address 3 (some []) = .error .notFound := by
  refine ⟨(connection_new_address_outcomes 3 none).1 rfl, ?_,
    ((connection_new_address_outcomes 3 (some [])).2.2 rfl).2⟩
  obtain ⟨i, a, hg, hv, hr⟩ :=
    (connection_new_address_outcomes 3 (some [10, 20])).2.1 [10, 20] rfl
      (by decide)
  have hi : (1 : Nat) = i :=
    Option.some.inj
      ((by decide : gen_range 3 0 [10, 20].length = some 1).symm.trans hg)
  subst hi
  have ha : (20 : Nat) = a :=
    Option.some.inj
      ((by decide : [10, 20][(1 : Nat)]? = some 20).symm.trans hv)
  subst ha
  exact hr

/-- C8 counterexample: the default port supplied for a plain `pulsar`
URL is 6650, not 6651. -/
theorem default_port_plain_not_6651 :
    default_port "pulsar" = some 6650 ∧ default_port "pulsar" ≠ some 6651 := by
  constructor
  · rfl
  · decide

/-- C8 amended: the default port for the plain `pulsar` scheme is 6650
and for `pulsar+ssl` it is 6651. -/
theorem default_port_values :
    default_port "pulsar" = some 6650
    ∧ default_port "pulsar+ssl" = some 6651 :=
  ⟨rfl, rfl⟩

/-- C9: a readable shutdown signal terminates the poll immediately with
the failure result, leaving the state untouched and setting no error;
and on every poll the `error.set` calls are exactly those of
registration-source closure, inbound end-of-stream, or an inbound
transport error. -/
theorem receiver_shutdown_orderly (s : Receiver) (inp : PollInput) :
    (inp.shutdownReady = true →
      s.poll inp = ⟨s, [], [], .terminatedErr⟩)
    ∧ (inp.shutdownReady = false →
        (s.poll inp).errSets =
          if inp.regsClosed then [.disconnected]
          else inboundErrSets inp.inbound inp.inboundClosed) := by
  constructor
  · intro hs
    simp [Receiver.poll, hs]
  · intro hs
    by_cases hr : inp.regsClosed <;>
      simp [Receiver.poll, hs, hr, drainInbound_errSets]

/-- Witness for C9: a readable shutdown on a fresh Receiver, and a
pending poll that sets no error. -/
theorem receiver_shutdown_orderly_witness :
    Receiver.new.poll ⟨true, [], false, [], false⟩
      = ⟨Receiver.new, [], [], .terminatedErr⟩
    ∧ (Receiver.new.poll ⟨false, [], false, [], false⟩).errSets = [] := by
  refine ⟨(receiver_shutdown_orderly Receiver.new
      ⟨true, [], false, [], false⟩).1 rfl, ?_⟩
  have h := (receiver_shutdown_orderly Receiver.new
    ⟨false, [], false, [], false⟩).2 rfl
  simpa [inboundErrSets] using h

/-- C10: the asymmetry of failure latching — a failed `Register::Consumer`
post in `subscribe` sets `Disconnected` on the shared cell and returns it
without enqueueing the `Subscribe` frame, whereas a failed registration
or enqueue inside `send_message` returns `Disconnected` without setting
the shared cell. -/
theorem subscribe_vs_send_message_latch (R : Type) (msg : Message)
    (extract : Message → Option R) (regOk txOk : Bool)
    (response : Option Message) :
    subscribe msg false regOk txOk response extract
      = { result := .error .disconnected, errSets := [.disconnected],
          enqueued := [] }
    ∧ (regOk = false ∨ txOk = false →
        (send_message msg regOk txOk response extract).result
          = .error .disconnected
        ∧ (send_message msg regOk txOk response extract).errSets = []) := by
  refine ⟨rfl, ?_⟩
  rintro (rfl | rfl) <;> simp [send_message]

/-- Witness for C10: a failed consumer registration and a failed
request registration, both at a concrete message and extractor. -/
theorem subscribe_vs_send_message_latch_witness :
    (subscribe { command := {} } false true true none
        (fun _ => (none : Option Nat))).errSets = [.disconnected]
    ∧ (send_message { command := {} } false true none
        (fun _ => (none : Option Nat))).errSets = [] :=
  ⟨congrArg OpOutcome.errSets
    (subscribe_vs_send_message_latch Nat { command := {} } (fun _ => none)
      true true none).1,
   ((subscribe_vs_send_message_latch Nat { command := {} } (fun _ => none)
      false true none).2 (Or.inl rfl)).2⟩

end PulsarConn
